import Mathlib

/-!
Shallow embedding of the `blues` reporter module (`blues/reporters.py`) and
utility functions (`blues/utils.py`) of the sgill2/ncmc repository, together
with theorems settling the specification claims about scheduling, reporter
construction and the small utility lookups.

Python mappings (dicts) are embedded as association lists with first-match
lookup; Python exceptions are embedded as `Except String`; Python integers as
`Int` (the step counters and intervals in question are used with non-negative
values, and Python's `%` on a positive modulus agrees with `Int.emod`).
-/

set_option autoImplicit false

/-- First-match association-list lookup, the embedding of a Python dict read
`d[k]` / `k in d`. -/
def getA {κ α : Type} [DecidableEq κ] : List (κ × α) → κ → Option α
  | [], _ => none
  | (k, v) :: rest, key => if k = key then some v else getA rest key

/-- Association-list update, the embedding of a Python `d[k] = v` /
`setattr(obj, k, v)`: replaces the first binding of the key or appends one. -/
def setA {κ α : Type} [DecidableEq κ] : List (κ × α) → κ → α → List (κ × α)
  | [], key, val => [(key, val)]
  | (k, v) :: rest, key, val =>
      if k = key then (key, val) :: rest else (k, v) :: setA rest key val

/-- A Python option value as it appears in a reporter configuration mapping. -/
inductive OptVal : Type where
  | vStr (s : String)
  | vInt (n : Int)
  | vBool (b : Bool)
deriving DecidableEq

/-- A reporter option mapping (the value of one key of the configuration
dict), e.g. `{"reportInterval": 250}`. -/
abbrev Opts : Type := List (String × OptVal)

/-! ## blues/utils.py -/

/-- An atom of an OpenMM topology, as far as `atomIndexfromTop` reads it:
its index and the name of its residue (`atom.index`, `atom.residue.name`). -/
structure Atom : Type where
  index : Nat
  resName : String
deriving DecidableEq

/-- Whether the character list `needle` occurs contiguously inside `hay`:
the embedding of Python's substring test `needle in hay` on strings. -/
def subAt : List Char → List Char → Bool
  | needle, [] => needle.isEmpty
  | needle, c :: rest => needle.isPrefixOf (c :: rest) || subAt needle rest

/-- Python `needle in hay` for strings (contiguous substring containment). -/
def strContains (needle hay : String) : Bool :=
  subAt needle.toList hay.toList

/-- Embeds `blues.utils.atomIndexfromTop`: a linear scan over the topology's
atoms, appending `atom.index` whenever `str(resname) in atom.residue.name`. -/
def atomIndexfromTop (resname : String) (topology : List Atom) : List Nat :=
  topology.foldl
    (fun lig_atoms atom =>
      if strContains resname atom.resName then lig_atoms ++ [atom.index]
      else lig_atoms)
    []

/-- The names bound at module scope in `blues/utils.py`: the sole top-level
imported name (`print_function`) and the two function definitions. The name `os` is
never bound (there is no `import os`), which is what makes
`get_data_filename` raise `NameError` below. -/
def utilsModuleGlobals : List String :=
  ["print_function", "resource_filename", "atomIndexfromTop", "get_data_filename"]

/-- Embeds `blues.utils.get_data_filename`. The function body evaluates
`os.path.join('data', relative_path)`; Python name resolution looks `os` up in
the local, module and builtin scopes, and since `blues/utils.py` never imports
`os`, the lookup fails with `NameError` before anything else runs. The
`resource_filename` resolver and the on-disk existence test are the external
collaborators, passed as functions. -/
def get_data_filename (relative_path : String)
    (resource_filename : String → String) (path_exists : String → Bool) :
    Except String String :=
  if utilsModuleGlobals.contains "os" then
    let fn := resource_filename ("data/" ++ relative_path)
    if path_exists fn then Except.ok fn
    else Except.error
      ("Sorry! " ++ fn ++ " does not exist. If you just added it, you'll have to re-install")
  else Except.error "NameError: name 'os' is not defined"

/-! ## blues/reporters.py: _check_mode -/

/-- Embeds `blues.reporters._check_mode`: returns normally when the mode `m`
is among the allowed `modes`, and otherwise raises a `ValueError` whose
message interpolates `m` itself (the mode that was checked). -/
def check_mode (m : String) (modes : List String) : Except String Unit :=
  if m ∈ modes then Except.ok ()
  else Except.error
    ("This operation is only available when a file is open in mode=\"" ++ m ++ "\".")

/-! ## blues/reporters.py: addLoggingLevel -/

/-- A Python attribute value as stored on the `logging` module or the logger
class by `addLoggingLevel`: either the numeric level or one of the convenience
logging functions (`logForLevel` / `logToRoot`), tagged by the level it logs
at (the closure captures `levelNum`). -/
inductive PyAttr : Type where
  | int (n : Int)
  | fn (level : Int)
deriving DecidableEq

/-- The mutable process-wide logging state touched by `addLoggingLevel`:
the attributes of the `logging` module, the attributes of the class returned
by `logging.getLoggerClass()`, the level-name registry written by
`logging.addLevelName`, and the warnings emitted so far. -/
structure LoggingState : Type where
  moduleAttrs : List (String × PyAttr)
  classAttrs : List (String × PyAttr)
  levelNames : List (Int × String)
  warnings : List String
deriving DecidableEq

/-- Python `hasattr` against an attribute map. -/
def hasattrA (attrs : List (String × PyAttr)) (name : String) : Bool :=
  (getA attrs name).isSome

/-- The `if not methodName: methodName = levelName.lower()` defaulting at the
top of `addLoggingLevel` (`None` and the empty string are both falsy). -/
def derivedMethod (levelName : String) (methodName : Option String) : String :=
  match methodName with
  | none => levelName.toLower
  | some s => if s = "" then levelName.toLower else s

/-- Embeds `blues.reporters.addLoggingLevel` as a transformer of the logging
state: it emits a warning for each of the three `hasattr` conflicts, then
unconditionally calls `logging.addLevelName`, sets the level attribute on the
module, and sets the convenience method on the logger class and the module,
in that order. -/
def addLoggingLevel (levelName : String) (levelNum : Int)
    (methodName : Option String) (st : LoggingState) : LoggingState :=
  let m := derivedMethod levelName methodName
  let w1 := if hasattrA st.moduleAttrs levelName then
    st.warnings ++ [levelName ++ " already defined in logging module"] else st.warnings
  let w2 := if hasattrA st.moduleAttrs m then
    w1 ++ [m ++ " already defined in logging module"] else w1
  let w3 := if hasattrA st.classAttrs m then
    w2 ++ [m ++ " already defined in logger class"] else w2
  { moduleAttrs := setA (setA st.moduleAttrs levelName (PyAttr.int levelNum)) m (PyAttr.fn levelNum)
    classAttrs := setA st.classAttrs m (PyAttr.fn levelNum)
    levelNames := setA st.levelNames levelNum levelName
    warnings := w3 }

/-! ## blues/reporters.py: ReporterConfig

`makeReporters` checks the five recognized keys in a fixed textual order,
resolves each output path from the key's own `outfname` option or the
top-level prefix, and constructs the reporter passing the key's full option
mapping as keyword arguments (`**self._cfg[key]`). The parmed reporter
constructors (`state`, `restart`, `progress`) are external collaborators and
are embedded as accepting the forwarded options; the two constructors defined
in this repository (`NetCDF4Reporter` for `traj_netcdf`,
`BLUESStateDataReporter` for `stream`) have fixed parameter lists, so Python
keyword binding raises `TypeError` on any forwarded option that is not one of
their parameter names. -/

/-- A constructed reporter, recording the resolved output path and the option
mapping forwarded to the constructor. `restart` also records the hard-coded
`netcdf=True` keyword; `stream` receives the logger instead of a path. -/
inductive Reporter : Type where
  | state (path : String) (kwargs : Opts)
  | traj_netcdf (path : String) (kwargs : Opts)
  | restart (path : String) (netcdf : Bool) (kwargs : Opts)
  | progress (path : String) (kwargs : Opts)
  | stream (kwargs : Opts)
deriving DecidableEq

/-- The reporter kind, for stating which key produced a reporter. -/
def kindOf : Reporter → String
  | Reporter.state _ _ => "state"
  | Reporter.traj_netcdf _ _ => "traj_netcdf"
  | Reporter.restart _ _ _ => "restart"
  | Reporter.progress _ _ => "progress"
  | Reporter.stream _ => "stream"

/-- The keyword parameters of `NetCDF4Reporter.__init__` (after the
positional `file`): a forwarded option outside this list makes Python keyword
binding fail with `TypeError`. -/
def netcdfParamNames : List String :=
  ["reportInterval", "frame_indices", "crds", "vels", "frcs",
   "protocolWork", "alchemicalLambda"]

/-- The keyword parameters of `BLUESStateDataReporter.__init__` (after the
positional `file`, which `makeReporters` fills with the logger). -/
def streamParamNames : List String :=
  ["reportInterval", "frame_indices", "title", "step", "time",
   "potentialEnergy", "kineticEnergy", "totalEnergy", "temperature",
   "volume", "density", "progress", "remainingTime", "speed",
   "elapsedTime", "separator", "systemMass", "totalSteps"]

/-- The per-key output-name resolution of `makeReporters`: the key's own
`outfname` option when present, else the top-level prefix. A non-string
`outfname` would make the subsequent `outfname + suffix` concatenation raise
`TypeError`. -/
def resolveOutfname (opts : Opts) (top : String) : Except String String :=
  match getA opts "outfname" with
  | some (OptVal.vStr s) => Except.ok s
  | some _ => Except.error "TypeError: can only concatenate str (not \"int\") to str"
  | none => Except.ok top

/-- The `state` branch: `parmed.openmm.reporters.StateDataReporter` is
external, embedded as accepting the forwarded options verbatim. -/
def mkStateReporter (top : String) (opts : Opts) : Except String Reporter :=
  (resolveOutfname opts top).map (fun f => Reporter.state (f ++ ".ene") opts)

/-- The `traj_netcdf` branch: constructs `NetCDF4Reporter(outfname + '.nc',
**opts)`; Python keyword binding rejects any option that is not a parameter
of `NetCDF4Reporter.__init__`. -/
def mkTrajNetcdf (top : String) (opts : Opts) : Except String Reporter :=
  (resolveOutfname opts top).bind (fun f =>
    if opts.all (fun kv => netcdfParamNames.contains kv.1) then
      Except.ok (Reporter.traj_netcdf (f ++ ".nc") opts)
    else
      Except.error "TypeError: __init__() got an unexpected keyword argument 'outfname'")

/-- The `restart` branch: `parmed.openmm.reporters.RestartReporter` is
external, but the call passes `netcdf=True` explicitly, so a forwarded
`netcdf` option raises `TypeError` (duplicate keyword) regardless of the
constructor's signature. -/
def mkRestart (top : String) (opts : Opts) : Except String Reporter :=
  (resolveOutfname opts top).bind (fun f =>
    if (getA opts "netcdf").isSome then
      Except.error "TypeError: __init__() got multiple values for keyword argument 'netcdf'"
    else
      Except.ok (Reporter.restart (f ++ ".rst7") true opts))

/-- The `progress` branch: `parmed.openmm.reporters.ProgressReporter` is
external, embedded as accepting the forwarded options verbatim. -/
def mkProgress (top : String) (opts : Opts) : Except String Reporter :=
  (resolveOutfname opts top).map (fun f => Reporter.progress (f ++ ".prog") opts)

/-- The `stream` branch: constructs `BLUESStateDataReporter(logger, **opts)`;
no output-path resolution happens for this key, and Python keyword binding
rejects any option that is not a parameter of its `__init__`. -/
def mkStream (_top : String) (opts : Opts) : Except String Reporter :=
  if opts.all (fun kv => streamParamNames.contains kv.1) then
    Except.ok (Reporter.stream opts)
  else
    Except.error "TypeError: __init__() got an unexpected keyword argument"

/-- The `ReporterConfig` object: the top-level output filename prefix and the
configuration mapping (a Python dict, embedded as an association list in
insertion order). The logger and the `trajectory_interval` side channel carry
no information relevant to the construction claims. -/
structure ReporterConfig : Type where
  outfname : String
  cfg : List (String × Opts)
deriving DecidableEq

/-- One `if key in self._cfg.keys():` block of `makeReporters`: absent keys
contribute nothing, present keys contribute the one constructed reporter (or
propagate the construction error). -/
def stepFor (rc : ReporterConfig) (key : String)
    (mk : String → Opts → Except String Reporter) : Except String (List Reporter) :=
  match getA rc.cfg key with
  | none => Except.ok []
  | some opts => (mk rc.outfname opts).map (fun r => [r])

/-- Embeds `ReporterConfig.makeReporters`: the five recognized keys are
checked in the fixed source order `state`, `traj_netcdf`, `restart`,
`progress`, `stream`, and the constructed reporters are appended in that
order; any other key of the mapping is never consulted. -/
def makeReporters (rc : ReporterConfig) : Except String (List Reporter) :=
  (stepFor rc "state" mkStateReporter).bind (fun a =>
  (stepFor rc "traj_netcdf" mkTrajNetcdf).bind (fun b =>
  (stepFor rc "restart" mkRestart).bind (fun c =>
  (stepFor rc "progress" mkProgress).bind (fun d =>
  (stepFor rc "stream" mkStream).map (fun e =>
  a ++ b ++ c ++ d ++ e)))))

/-- The fixed check order of the recognized configuration keys. -/
def recognizedKeys : List String :=
  ["state", "traj_netcdf", "restart", "progress", "stream"]

/-! ## blues/reporters.py: the three reporter variants

All three constructors store `frame_indices` and, when the supplied list is
non-empty (Python truthiness of a list), replace it by `[x - 1 for x in
frame_indices]`. All three `describeNextReport` methods compute the steps
value the same way: with a non-empty adjusted list, `1` if
`simulation.currentStep` is a member (exact equality) and `-1` otherwise;
with an empty list, `reportInterval - currentStep % reportInterval`.
Python's `%` on a positive modulus agrees with `Int.emod`. The boolean flags
in the returned 5-tuple are fixed at construction. -/

/-- The shared frame-index adjustment done by all three constructors. -/
def adjustFrameIndices (frame_indices : List Int) : List Int :=
  if frame_indices.isEmpty then frame_indices
  else frame_indices.map (fun x => x - 1)

/-- The constructor arguments of `BLUESHDF5Reporter.__init__` (the `file`
argument and the opaque `atomSubset` / `parameters` payload options are kept
for completeness). -/
structure HDF5Args : Type where
  file : String
  reportInterval : Int
  title : String
  coordinates : Bool
  frame_indices : List Int
  time : Bool
  cell : Bool
  temperature : Bool
  potentialEnergy : Bool
  kineticEnergy : Bool
  velocities : Bool
  atomSubset : Option (List Nat)
  protocolWork : Bool
  alchemicalLambda : Bool
  parameters : Option Opts
  environment : Bool

/-- The state of a constructed `BLUESHDF5Reporter` relevant to scheduling:
the interval and flags stored by its own `__init__` plus `_needEnergy`.
`_needEnergy` is set by the external mdtraj `HDF5Reporter` base constructor;
modelled from the spec: the flags returned by `describeNextReport` are
static, fixed at construction, and energy is needed when any of the energy /
temperature columns was requested. -/
structure BLUESHDF5Reporter : Type where
  file : String
  reportInterval : Int
  title : String
  coordinates : Bool
  frame_indices : List Int
  velocities : Bool
  needEnergy : Bool

/-- Embeds `BLUESHDF5Reporter.__init__`: stores the flags and performs the
frame-index adjustment. -/
def BLUESHDF5Reporter.init (a : HDF5Args) : BLUESHDF5Reporter :=
  { file := a.file
    reportInterval := a.reportInterval
    title := a.title
    coordinates := a.coordinates
    frame_indices := adjustFrameIndices a.frame_indices
    velocities := a.velocities
    needEnergy := a.potentialEnergy || a.kineticEnergy || a.temperature }

/-- Embeds `BLUESHDF5Reporter.describeNextReport`: the frame-index branch
when the stored list is non-empty, the fixed-cadence branch otherwise, then
the tuple `(steps, coordinates, velocities, False, needEnergy)`. -/
def BLUESHDF5Reporter.describeNextReport (r : BLUESHDF5Reporter)
    (currentStep : Int) : Int × Bool × Bool × Bool × Bool :=
  let steps :=
    if r.frame_indices.isEmpty then
      r.reportInterval - currentStep % r.reportInterval
    else if currentStep ∈ r.frame_indices then 1 else -1
  (steps, r.coordinates, r.velocities, false, r.needEnergy)

/-- The attributes `_needsPositions`, `_needsVelocities`, `_needsForces` and
`_needEnergy` read by `BLUESStateDataReporter.describeNextReport`. They are
set by the external openmm `StateDataReporter` base constructor (an opaque
collaborator); modelled from the spec: static flags fixed at construction,
carried abstractly. -/
structure StateDataBase : Type where
  needsPositions : Bool
  needsVelocities : Bool
  needsForces : Bool
  needEnergy : Bool

/-- The constructor arguments of `BLUESStateDataReporter.__init__` that its
own body reads (the remaining column flags only feed the opaque base
constructor, represented by a `StateDataBase`). -/
structure StateArgs : Type where
  reportInterval : Int
  frame_indices : List Int
  title : String

/-- The state of a constructed `BLUESStateDataReporter` relevant to
scheduling. -/
structure BLUESStateDataReporter : Type where
  reportInterval : Int
  title : String
  frame_indices : List Int
  base : StateDataBase

/-- Embeds `BLUESStateDataReporter.__init__`: delegates the column flags to
the opaque base constructor, stores the title and performs the frame-index
adjustment. -/
def BLUESStateDataReporter.init (a : StateArgs) (base : StateDataBase) :
    BLUESStateDataReporter :=
  { reportInterval := a.reportInterval
    title := a.title
    frame_indices := adjustFrameIndices a.frame_indices
    base := base }

/-- Embeds `BLUESStateDataReporter.describeNextReport`. -/
def BLUESStateDataReporter.describeNextReport (r : BLUESStateDataReporter)
    (currentStep : Int) : Int × Bool × Bool × Bool × Bool :=
  let steps :=
    if r.frame_indices.isEmpty then
      r.reportInterval - currentStep % r.reportInterval
    else if currentStep ∈ r.frame_indices then 1 else -1
  (steps, r.base.needsPositions, r.base.needsVelocities,
   r.base.needsForces, r.base.needEnergy)

/-- The constructor arguments of `NetCDF4Reporter.__init__`. -/
structure NCArgs : Type where
  file : String
  reportInterval : Int
  frame_indices : List Int
  crds : Bool
  vels : Bool
  frcs : Bool
  protocolWork : Bool
  alchemicalLambda : Bool

/-- The state of a constructed `NetCDF4Reporter`: the filename (stored by the
parmed base as `self.fname`), the stored flags and the adjusted frame
indices. -/
structure NetCDF4Reporter : Type where
  fname : String
  reportInterval : Int
  frame_indices : List Int
  crds : Bool
  vels : Bool
  frcs : Bool
  protocolWork : Bool
  alchemicalLambda : Bool

/-- Embeds `NetCDF4Reporter.__init__`. -/
def NetCDF4Reporter.init (a : NCArgs) : NetCDF4Reporter :=
  { fname := a.file
    reportInterval := a.reportInterval
    frame_indices := adjustFrameIndices a.frame_indices
    crds := a.crds
    vels := a.vels
    frcs := a.frcs
    protocolWork := a.protocolWork
    alchemicalLambda := a.alchemicalLambda }

/-- Embeds `NetCDF4Reporter.describeNextReport`. -/
def NetCDF4Reporter.describeNextReport (r : NetCDF4Reporter)
    (currentStep : Int) : Int × Bool × Bool × Bool × Bool :=
  let steps :=
    if r.frame_indices.isEmpty then
      r.reportInterval - currentStep % r.reportInterval
    else if currentStep ∈ r.frame_indices then 1 else -1
  (steps, r.crds, r.vels, r.frcs, false)

/-! ## blues/reporters.py: NetCDF4Reporter.report (lazy file open) -/

/-- The open trajectory-file handle created by `NetCDF4Traj.open_new`, as far
as the lazy-open claims observe it: the atom count it was opened with and the
`uses_pbc` decision taken at open time. -/
structure NCTraj : Type where
  atom : Nat
  uses_pbc : Bool
deriving DecidableEq

/-- Modelled from the spec: the external parmed `NetCDFReporter` base
constructor leaves the trajectory file unopened (`self._out = None`); the
file is opened lazily on the first `report` call, not at construction. -/
def NetCDF4Reporter.initialOut : Option NCTraj := none

/-- Embeds the file-lifecycle portion of `NetCDF4Reporter.report`: given the
current `_out` handle, the topology's box-dimension presence and the atom
count of the state's position/velocity/force arrays, it returns the new
`_out` handle together with the number of `open_new` calls performed. When
`_out is None` the atom count is taken from whichever of
coordinates/velocities/forces is enabled (the `elif` chain); with all three
disabled the local variable `atom` is never assigned and Python raises
`UnboundLocalError` before any file is opened. The record appends that follow
the open do not change the handle and are not modelled. -/
def NetCDF4Reporter.report (r : NetCDF4Reporter) (out : Option NCTraj)
    (hasBox : Bool) (natoms : Nat) : Except String (Option NCTraj × Nat) :=
  match out with
  | some t => Except.ok (some t, 0)
  | none =>
      if r.crds then Except.ok (some ⟨natoms, hasBox⟩, 1)
      else if r.vels then Except.ok (some ⟨natoms, hasBox⟩, 1)
      else if r.frcs then Except.ok (some ⟨natoms, hasBox⟩, 1)
      else Except.error
        "UnboundLocalError: local variable 'atom' referenced before assignment"

/-! ## Helper lemmas -/

theorem getA_setA_self {κ α : Type} [DecidableEq κ] (l : List (κ × α)) (k : κ) (v : α) :
    getA (setA l k v) k = some v := by
  induction l with
  | nil => simp [setA, getA]
  | cons p rest ih =>
      obtain ⟨k', v'⟩ := p
      by_cases h : k' = k <;> simp [setA, getA, h, ih]

theorem getA_setA_ne {κ α : Type} [DecidableEq κ] (l : List (κ × α)) (k k' : κ) (v : α)
    (h : k ≠ k') : getA (setA l k v) k' = getA l k' := by
  induction l with
  | nil => simp [setA, getA, h]
  | cons p rest ih =>
      obtain ⟨k0, v0⟩ := p
      by_cases h0 : k0 = k
      · subst h0; simp [setA, getA, h]
      · simp [setA, getA, h0, ih]

theorem mem_of_mem_ite_append {a x : String} {l : List String} (h : a ∈ l) (c : Bool) :
    a ∈ (if c = true then l ++ [x] else l) := by
  split <;> simp [List.mem_append, h]

theorem except_bind_ok {α β : Type} {x : Except String α} {f : α → Except String β} {b : β} :
    x.bind f = Except.ok b ↔ ∃ a, x = Except.ok a ∧ f a = Except.ok b := by
  cases x <;> simp [Except.bind]

theorem except_map_ok {α β : Type} {x : Except String α} {f : α → β} {b : β} :
    x.map f = Except.ok b ↔ ∃ a, x = Except.ok a ∧ f a = b := by
  cases x <;> simp [Except.map]

/-- The filter/map characterization used to state the scan lemma for
`atomIndexfromTop`, generalized over the accumulator. -/
theorem atom_scan_general (resname : String) (top : List Atom) (acc : List Nat) :
    top.foldl
      (fun lig_atoms atom =>
        if strContains resname atom.resName then lig_atoms ++ [atom.index]
        else lig_atoms) acc
      = acc ++ (top.filter (fun a => strContains resname a.resName)).map Atom.index := by
  induction top generalizing acc with
  | nil => simp
  | cons a rest ih =>
      by_cases h : strContains resname a.resName = true <;>
        simp [List.filter_cons, h, ih, List.append_assoc]

/-! ## Claim theorems -/

/-- C8: `atomIndexfromTop` returns exactly the indices of the atoms whose
residue name contains the given string as a substring (substring match, not
equality), in topology scan order; in particular querying "LIG" matches an
atom of residue "LIG2". -/
theorem c8_atom_index_substring :
    (∀ (resname : String) (topology : List Atom),
        atomIndexfromTop resname topology =
          (topology.filter (fun a => strContains resname a.resName)).map Atom.index)
    ∧ atomIndexfromTop "LIG" [⟨0, "WAT"⟩, ⟨1, "LIG2"⟩, ⟨2, "WAT"⟩] = [1] := by
  constructor
  · intro resname topology
    simpa using atom_scan_general resname topology []
  · decide

/-- C9 (code bug): every call of `get_data_filename` raises
`NameError: name 'os' is not defined`, because `blues/utils.py` uses
`os.path.join` / `os.path.exists` without ever importing `os`; the resolved
path is never returned and the documented `ValueError` branch is
unreachable. -/
theorem c9_get_data_filename_name_error (relative_path : String)
    (resource_filename : String → String) (path_exists : String → Bool) :
    get_data_filename relative_path resource_filename path_exists =
      Except.error "NameError: name 'os' is not defined" := rfl

/-- C6 (code bug): `_check_mode` returns normally when the mode is allowed,
but the `ValueError` it raises interpolates the checked mode `m` itself — the
mode the file is actually open in — into a message template that speaks of
the mode the operation requires; at `m = "r"`, allowed modes `("w",)`, the
message names `"r"`, not the required `"w"`. -/
theorem c6_check_mode_message :
    check_mode "w" ["w"] = Except.ok ()
    ∧ check_mode "r" ["w"] =
        Except.error
          "This operation is only available when a file is open in mode=\"r\"." := by
  constructor <;> rfl

/-- C7: a freshly constructed `NetCDF4Reporter` has no open trajectory file;
provided at least one of coordinates/velocities/forces is enabled, the first
`report` call performs exactly one `open_new` (with the atom count inferred
from the state arrays), and any call finding the file already open performs
zero further opens and keeps the same handle. -/
theorem c7_lazy_open (r : NetCDF4Reporter) (hasBox : Bool) (natoms : Nat)
    (h : r.crds = true ∨ r.vels = true ∨ r.frcs = true) :
    r.report NetCDF4Reporter.initialOut hasBox natoms =
        Except.ok (some ⟨natoms, hasBox⟩, 1)
    ∧ ∀ t : NCTraj, r.report (some t) hasBox natoms = Except.ok (some t, 0) := by
  constructor
  · cases hc : r.crds <;> cases hv : r.vels <;> cases hf : r.frcs <;>
      simp_all [NetCDF4Reporter.report, NetCDF4Reporter.initialOut]
  · intro t
    rfl

/-- C7 witness: a reporter with only coordinates enabled opens once on the
first call and zero times on the second. -/
theorem c7_witness :
    (NetCDF4Reporter.init ⟨"traj.nc", 1, [], true, false, false, false, false⟩).report
        NetCDF4Reporter.initialOut true 42 = Except.ok (some ⟨42, true⟩, 1)
    ∧ (NetCDF4Reporter.init ⟨"traj.nc", 1, [], true, false, false, false, false⟩).report
        (some ⟨42, true⟩) true 42 = Except.ok (some ⟨42, true⟩, 0) := by
  have h := c7_lazy_open
    (NetCDF4Reporter.init ⟨"traj.nc", 1, [], true, false, false, false, false⟩)
    true 42 (Or.inl rfl)
  exact ⟨h.1, h.2 ⟨42, true⟩⟩

/-- C10: with coordinates, velocities and forces all disabled, the first
`report` call of a `NetCDF4Reporter` fails (`UnboundLocalError`: the local
`atom` is never assigned) before any trajectory file is opened. -/
theorem c10_no_flags_unbound_local (r : NetCDF4Reporter) (hasBox : Bool) (natoms : Nat)
    (hc : r.crds = false) (hv : r.vels = false) (hf : r.frcs = false) :
    r.report NetCDF4Reporter.initialOut hasBox natoms =
      Except.error "UnboundLocalError: local variable 'atom' referenced before assignment" := by
  simp [NetCDF4Reporter.report, NetCDF4Reporter.initialOut, hc, hv, hf]

/-- C10 witness: the all-flags-false reporter at a concrete state. -/
theorem c10_witness :
    (NetCDF4Reporter.init ⟨"traj.nc", 1, [], false, false, false, false, false⟩).report
        NetCDF4Reporter.initialOut false 10 =
      Except.error "UnboundLocalError: local variable 'atom' referenced before assignment" :=
  c10_no_flags_unbound_local
    (NetCDF4Reporter.init ⟨"traj.nc", 1, [], false, false, false, false, false⟩)
    false 10 rfl rfl rfl

/-- C1: every reporter variant constructed with a non-empty `frame_indices`
list stores the list with each entry decremented by one, and
`describeNextReport` then returns steps = 1 exactly when the current step is
a member (exact equality) of the adjusted list, and -1 otherwise. -/
theorem c1_frame_index_scheduling (fi : List Int) (h : fi ≠ []) (s : Int)
    (a : HDF5Args) (sa : StateArgs) (b : StateDataBase) (na : NCArgs)
    (ha : a.frame_indices = fi) (hsa : sa.frame_indices = fi)
    (hna : na.frame_indices = fi) :
    ((BLUESHDF5Reporter.init a).frame_indices = fi.map (fun x => x - 1)
      ∧ ((BLUESHDF5Reporter.init a).describeNextReport s).1 =
          if s ∈ fi.map (fun x => x - 1) then 1 else -1)
    ∧ ((BLUESStateDataReporter.init sa b).frame_indices = fi.map (fun x => x - 1)
      ∧ ((BLUESStateDataReporter.init sa b).describeNextReport s).1 =
          if s ∈ fi.map (fun x => x - 1) then 1 else -1)
    ∧ ((NetCDF4Reporter.init na).frame_indices = fi.map (fun x => x - 1)
      ∧ ((NetCDF4Reporter.init na).describeNextReport s).1 =
          if s ∈ fi.map (fun x => x - 1) then 1 else -1) := by
  have hne : fi.isEmpty = false := by
    cases fi
    · exact absurd rfl h
    · rfl
  have hne2 : (fi.map (fun x => x - 1)).isEmpty = false := by
    cases fi
    · exact absurd rfl h
    · rfl
  refine ⟨⟨?_, ?_⟩, ⟨?_, ?_⟩, ⟨?_, ?_⟩⟩ <;>
    simp [BLUESHDF5Reporter.init, BLUESHDF5Reporter.describeNextReport,
      BLUESStateDataReporter.init, BLUESStateDataReporter.describeNextReport,
      NetCDF4Reporter.init, NetCDF4Reporter.describeNextReport,
      adjustFrameIndices, ha, hsa, hna, hne, hne2]

/-- C1 witness: frame indices supplied as [6, 102] are stored as [5, 101];
at step 5 each variant schedules steps = 1 and at step 4 steps = -1. -/
theorem c1_witness :
    (BLUESHDF5Reporter.init
        ⟨"t.h5", 1, "NCMC Trajectory", true, [6, 102], false, true, false, false,
         false, false, none, true, true, none, true⟩).frame_indices = [5, 101]
    ∧ ((BLUESHDF5Reporter.init
        ⟨"t.h5", 1, "NCMC Trajectory", true, [6, 102], false, true, false, false,
         false, false, none, true, true, none, true⟩).describeNextReport 5).1 = 1
    ∧ ((BLUESStateDataReporter.init ⟨1, [6, 102], "md"⟩
        ⟨false, false, false, false⟩).describeNextReport 5).1 = 1
    ∧ ((NetCDF4Reporter.init
        ⟨"t.nc", 1, [6, 102], true, false, false, false, false⟩).describeNextReport 4).1 = -1
    ∧ ((BLUESHDF5Reporter.init
        ⟨"t.h5", 1, "NCMC Trajectory", true, [6, 102], false, true, false, false,
         false, false, none, true, true, none, true⟩).describeNextReport 4).1 = -1 := by
  have h5 := c1_frame_index_scheduling [6, 102] (by decide) 5
    ⟨"t.h5", 1, "NCMC Trajectory", true, [6, 102], false, true, false, false,
     false, false, none, true, true, none, true⟩
    ⟨1, [6, 102], "md"⟩ ⟨false, false, false, false⟩
    ⟨"t.nc", 1, [6, 102], true, false, false, false, false⟩ rfl rfl rfl
  have h4 := c1_frame_index_scheduling [6, 102] (by decide) 4
    ⟨"t.h5", 1, "NCMC Trajectory", true, [6, 102], false, true, false, false,
     false, false, none, true, true, none, true⟩
    ⟨1, [6, 102], "md"⟩ ⟨false, false, false, false⟩
    ⟨"t.nc", 1, [6, 102], true, false, false, false, false⟩ rfl rfl rfl
  refine ⟨?_, ?_, ?_, ?_, ?_⟩
  · rw [h5.1.1]; decide
  · rw [h5.1.2]; decide
  · rw [h5.2.1.2]; decide
  · rw [h4.2.2.2]; decide
  · rw [h4.1.2]; decide

/-- C2: with an empty `frame_indices` list and report interval n ≥ 1, every
variant's `describeNextReport` returns steps = n - (s mod n) at current step
s ≥ 0, and this value always lies in the interval [1, n]. -/
theorem c2_fixed_cadence (n s : Int) (hn : 1 ≤ n) (_hs : 0 ≤ s)
    (a : HDF5Args) (sa : StateArgs) (b : StateDataBase) (na : NCArgs)
    (ha1 : a.frame_indices = []) (ha2 : a.reportInterval = n)
    (hb1 : sa.frame_indices = []) (hb2 : sa.reportInterval = n)
    (hc1 : na.frame_indices = []) (hc2 : na.reportInterval = n) :
    (((BLUESHDF5Reporter.init a).describeNextReport s).1 = n - s % n
      ∧ 1 ≤ ((BLUESHDF5Reporter.init a).describeNextReport s).1
      ∧ ((BLUESHDF5Reporter.init a).describeNextReport s).1 ≤ n)
    ∧ (((BLUESStateDataReporter.init sa b).describeNextReport s).1 = n - s % n
      ∧ 1 ≤ ((BLUESStateDataReporter.init sa b).describeNextReport s).1
      ∧ ((BLUESStateDataReporter.init sa b).describeNextReport s).1 ≤ n)
    ∧ (((NetCDF4Reporter.init na).describeNextReport s).1 = n - s % n
      ∧ 1 ≤ ((NetCDF4Reporter.init na).describeNextReport s).1
      ∧ ((NetCDF4Reporter.init na).describeNextReport s).1 ≤ n) := by
  have hlow : 0 ≤ s % n := Int.emod_nonneg s (by omega)
  have hhigh : s % n < n := Int.emod_lt_of_pos s (by omega)
  have e1 : ((BLUESHDF5Reporter.init a).describeNextReport s).1 = n - s % n := by
    simp [BLUESHDF5Reporter.init, BLUESHDF5Reporter.describeNextReport,
      adjustFrameIndices, ha1, ha2]
  have e2 : ((BLUESStateDataReporter.init sa b).describeNextReport s).1 = n - s % n := by
    simp [BLUESStateDataReporter.init, BLUESStateDataReporter.describeNextReport,
      adjustFrameIndices, hb1, hb2]
  have e3 : ((NetCDF4Reporter.init na).describeNextReport s).1 = n - s % n := by
    simp [NetCDF4Reporter.init, NetCDF4Reporter.describeNextReport,
      adjustFrameIndices, hc1, hc2]
  rw [e1, e2, e3]
  omega

/-- C2 witness: interval 250 at step 130 schedules 120 steps ahead for each
variant, and 1 ≤ 120 ≤ 250. -/
theorem c2_witness :
    ((BLUESHDF5Reporter.init
        ⟨"t.h5", 250, "NCMC Trajectory", true, [], false, true, false, false,
         false, false, none, true, true, none, true⟩).describeNextReport 130).1 = 120
    ∧ ((BLUESStateDataReporter.init ⟨250, [], "md"⟩
        ⟨false, false, false, false⟩).describeNextReport 130).1 = 120
    ∧ ((NetCDF4Reporter.init
        ⟨"t.nc", 250, [], true, false, false, false, false⟩).describeNextReport 130).1 = 120 := by
  have h := c2_fixed_cadence 250 130 (by decide) (by decide)
    ⟨"t.h5", 250, "NCMC Trajectory", true, [], false, true, false, false,
     false, false, none, true, true, none, true⟩
    ⟨250, [], "md"⟩ ⟨false, false, false, false⟩
    ⟨"t.nc", 250, [], true, false, false, false, false⟩ rfl rfl rfl rfl rfl rfl
  refine ⟨?_, ?_, ?_⟩
  · rw [h.1.1]; decide
  · rw [h.2.1.1]; decide
  · rw [h.2.2.1]; decide

/-- C5 counterexample: with `TRACE` already bound to level 5 on the logging
module, `addLoggingLevel("TRACE", 7)` warns but then overwrites the attribute
with 7 — the pre-existing attribute does not stay unchanged as the claim
states. -/
theorem c5_claim_counterexample :
    ¬ (getA (addLoggingLevel "TRACE" 7 (some "trace")
          ⟨[("TRACE", PyAttr.int 5)], [], [], []⟩).moduleAttrs "TRACE"
        = some (PyAttr.int 5))
    ∧ (addLoggingLevel "TRACE" 7 (some "trace")
          ⟨[("TRACE", PyAttr.int 5)], [], [], []⟩).warnings
        = ["TRACE already defined in logging module"] := by
  constructor
  · decide
  · decide

/-- C5 (amended): `addLoggingLevel` registers the severity with the logging
subsystem and attaches the convenience method at module scope and on the
logger class; a pre-existing attribute of the same name produces a warning
and no failure, but the attribute is then overwritten with the new value
rather than left unchanged. -/
theorem c5_add_logging_level (levelName : String) (levelNum : Int)
    (methodName : Option String) (st : LoggingState) :
    getA (addLoggingLevel levelName levelNum methodName st).levelNames levelNum
        = some levelName
    ∧ getA (addLoggingLevel levelName levelNum methodName st).moduleAttrs
        (derivedMethod levelName methodName) = some (PyAttr.fn levelNum)
    ∧ getA (addLoggingLevel levelName levelNum methodName st).classAttrs
        (derivedMethod levelName methodName) = some (PyAttr.fn levelNum)
    ∧ (levelName ≠ derivedMethod levelName methodName →
        getA (addLoggingLevel levelName levelNum methodName st).moduleAttrs levelName
          = some (PyAttr.int levelNum))
    ∧ (hasattrA st.moduleAttrs levelName = true →
        (levelName ++ " already defined in logging module")
          ∈ (addLoggingLevel levelName levelNum methodName st).warnings)
    ∧ (hasattrA st.moduleAttrs (derivedMethod levelName methodName) = true →
        (derivedMethod levelName methodName ++ " already defined in logging module")
          ∈ (addLoggingLevel levelName levelNum methodName st).warnings)
    ∧ (hasattrA st.classAttrs (derivedMethod levelName methodName) = true →
        (derivedMethod levelName methodName ++ " already defined in logger class")
          ∈ (addLoggingLevel levelName levelNum methodName st).warnings) := by
  refine ⟨?_, ?_, ?_, ?_, ?_, ?_, ?_⟩
  · simp [addLoggingLevel, getA_setA_self]
  · simp [addLoggingLevel, getA_setA_self]
  · simp [addLoggingLevel, getA_setA_self]
  · intro h
    simp only [addLoggingLevel]
    rw [getA_setA_ne _ _ _ _ (Ne.symm h), getA_setA_self]
  · intro h
    simp only [addLoggingLevel, h, if_true]
    apply mem_of_mem_ite_append
    apply mem_of_mem_ite_append
    simp [List.mem_append]
  · intro h
    simp only [addLoggingLevel]
    apply mem_of_mem_ite_append
    simp [h, List.mem_append]
  · intro h
    simp only [addLoggingLevel, h, if_true]
    simp [List.mem_append]

/-- C5 witness: the amended behavior at a concrete state where the level
name pre-exists on the module and the method name pre-exists on both the
module and the logger class: the level attribute is overwritten and all three
conflict warnings are emitted. -/
theorem c5_witness :
    getA (addLoggingLevel "TRACE" 5 (some "trace")
        ⟨[("TRACE", PyAttr.int 9), ("trace", PyAttr.fn 2)],
         [("trace", PyAttr.fn 3)], [], []⟩).moduleAttrs "TRACE"
      = some (PyAttr.int 5)
    ∧ ("TRACE already defined in logging module")
        ∈ (addLoggingLevel "TRACE" 5 (some "trace")
            ⟨[("TRACE", PyAttr.int 9), ("trace", PyAttr.fn 2)],
             [("trace", PyAttr.fn 3)], [], []⟩).warnings
    ∧ ("trace already defined in logging module")
        ∈ (addLoggingLevel "TRACE" 5 (some "trace")
            ⟨[("TRACE", PyAttr.int 9), ("trace", PyAttr.fn 2)],
             [("trace", PyAttr.fn 3)], [], []⟩).warnings
    ∧ ("trace already defined in logger class")
        ∈ (addLoggingLevel "TRACE" 5 (some "trace")
            ⟨[("TRACE", PyAttr.int 9), ("trace", PyAttr.fn 2)],
             [("trace", PyAttr.fn 3)], [], []⟩).warnings := by
  have h := c5_add_logging_level "TRACE" 5 (some "trace")
    ⟨[("TRACE", PyAttr.int 9), ("trace", PyAttr.fn 2)],
     [("trace", PyAttr.fn 3)], [], []⟩
  exact ⟨h.2.2.2.1 (by decide), h.2.2.2.2.1 (by decide),
    h.2.2.2.2.2.1 (by decide), h.2.2.2.2.2.2 (by decide)⟩

/-- The `state` branch only ever constructs a `state` reporter. -/
theorem mk_state_kind (top : String) (opts : Opts) (r : Reporter)
    (h : mkStateReporter top opts = Except.ok r) : kindOf r = "state" := by
  unfold mkStateReporter at h
  rcases except_map_ok.mp h with ⟨f, _, hr⟩
  subst hr
  rfl

/-- The `traj_netcdf` branch only ever constructs a `traj_netcdf` reporter. -/
theorem mk_traj_kind (top : String) (opts : Opts) (r : Reporter)
    (h : mkTrajNetcdf top opts = Except.ok r) : kindOf r = "traj_netcdf" := by
  unfold mkTrajNetcdf at h
  rcases except_bind_ok.mp h with ⟨f, _, hr⟩
  split at hr
  · cases hr; rfl
  · cases hr

/-- The `restart` branch only ever constructs a `restart` reporter. -/
theorem mk_restart_kind (top : String) (opts : Opts) (r : Reporter)
    (h : mkRestart top opts = Except.ok r) : kindOf r = "restart" := by
  unfold mkRestart at h
  rcases except_bind_ok.mp h with ⟨f, _, hr⟩
  split at hr
  · cases hr
  · cases hr; rfl

/-- The `progress` branch only ever constructs a `progress` reporter. -/
theorem mk_progress_kind (top : String) (opts : Opts) (r : Reporter)
    (h : mkProgress top opts = Except.ok r) : kindOf r = "progress" := by
  unfold mkProgress at h
  rcases except_map_ok.mp h with ⟨f, _, hr⟩
  subst hr
  rfl

/-- The `stream` branch only ever constructs a `stream` reporter. -/
theorem mk_stream_kind (top : String) (opts : Opts) (r : Reporter)
    (h : mkStream top opts = Except.ok r) : kindOf r = "stream" := by
  unfold mkStream at h
  split at h
  · cases h; rfl
  · cases h

/-- A successful `stepFor` contributes `[key]` to the kind list when the key
is present and nothing when it is absent. -/
theorem stepFor_ok_kinds (rc : ReporterConfig) (key : String)
    (mk : String → Opts → Except String Reporter)
    (hmk : ∀ opts r, mk rc.outfname opts = Except.ok r → kindOf r = key)
    (l : List Reporter) (h : stepFor rc key mk = Except.ok l) :
    l.map kindOf = if (getA rc.cfg key).isSome then [key] else [] := by
  unfold stepFor at h
  cases hg : getA rc.cfg key with
  | none =>
      rw [hg] at h
      cases h
      simp [hg]
  | some opts =>
      rw [hg] at h
      rcases except_map_ok.mp h with ⟨r, hr, hl⟩
      subst hl
      simp [hg, hmk opts r hr]

/-- Filtering the five-element fixed key list is the append of five
singleton-or-empty segments. -/
theorem filter_recognized (p : String → Bool) :
    recognizedKeys.filter p
      = (if p "state" then ["state"] else [])
        ++ (if p "traj_netcdf" then ["traj_netcdf"] else [])
        ++ (if p "restart" then ["restart"] else [])
        ++ (if p "progress" then ["progress"] else [])
        ++ (if p "stream" then ["stream"] else []) := by
  simp only [recognizedKeys, List.filter_cons, List.filter_nil]
  split_ifs <;> simp_all

/-- C4: whenever `makeReporters` returns a list, it holds one reporter per
recognized key present, in the fixed check order `state`, `traj_netcdf`,
`restart`, `progress`, `stream`; and the result depends only on the lookups
of the five recognized keys, so unrecognized keys and the insertion order of
the mapping have no effect. -/
theorem c4_make_reporters (rc : ReporterConfig) :
    (∀ rs, makeReporters rc = Except.ok rs →
        rs.map kindOf = recognizedKeys.filter (fun k => (getA rc.cfg k).isSome))
    ∧ (∀ rc' : ReporterConfig, rc.outfname = rc'.outfname →
        (∀ k, k ∈ recognizedKeys → getA rc.cfg k = getA rc'.cfg k) →
        makeReporters rc = makeReporters rc') := by
  constructor
  · intro rs h
    unfold makeReporters at h
    rcases except_bind_ok.mp h with ⟨a, hA, h⟩
    rcases except_bind_ok.mp h with ⟨b, hB, h⟩
    rcases except_bind_ok.mp h with ⟨c, hC, h⟩
    rcases except_bind_ok.mp h with ⟨d, hD, h⟩
    rcases except_map_ok.mp h with ⟨e, hE, hrs⟩
    subst hrs
    rw [filter_recognized]
    simp only [List.map_append]
    rw [stepFor_ok_kinds rc "state" mkStateReporter (mk_state_kind rc.outfname) a hA,
      stepFor_ok_kinds rc "traj_netcdf" mkTrajNetcdf (mk_traj_kind rc.outfname) b hB,
      stepFor_ok_kinds rc "restart" mkRestart (mk_restart_kind rc.outfname) c hC,
      stepFor_ok_kinds rc "progress" mkProgress (mk_progress_kind rc.outfname) d hD,
      stepFor_ok_kinds rc "stream" mkStream (mk_stream_kind rc.outfname) e hE]
  · intro rc' h1 h2
    have e1 := h2 "state" (by simp [recognizedKeys])
    have e2 := h2 "traj_netcdf" (by simp [recognizedKeys])
    have e3 := h2 "restart" (by simp [recognizedKeys])
    have e4 := h2 "progress" (by simp [recognizedKeys])
    have e5 := h2 "stream" (by simp [recognizedKeys])
    simp only [makeReporters, stepFor, e1, e2, e3, e4, e5, h1]

/-- C4 witness: a configuration holding only `state` (interval 250) plus an
unrecognized key produces exactly one reporter, writing to `run.ene`, and
dropping the unrecognized key leaves the result unchanged. -/
theorem c4_witness :
    makeReporters ⟨"run", [("state", [("reportInterval", OptVal.vInt 250)]), ("bogus", [])]⟩
      = Except.ok [Reporter.state "run.ene" [("reportInterval", OptVal.vInt 250)]]
    ∧ [Reporter.state "run.ene" [("reportInterval", OptVal.vInt 250)]].map kindOf
      = recognizedKeys.filter (fun k =>
          (getA ([("state", [("reportInterval", OptVal.vInt 250)]), ("bogus", [])]
            : List (String × Opts)) k).isSome)
    ∧ makeReporters ⟨"run", [("state", [("reportInterval", OptVal.vInt 250)]), ("bogus", [])]⟩
      = makeReporters ⟨"run", [("state", [("reportInterval", OptVal.vInt 250)])]⟩ := by
  refine ⟨rfl, ?_, ?_⟩
  · exact (c4_make_reporters
      ⟨"run", [("state", [("reportInterval", OptVal.vInt 250)]), ("bogus", [])]⟩).1 _ rfl
  · exact (c4_make_reporters
      ⟨"run", [("state", [("reportInterval", OptVal.vInt 250)]), ("bogus", [])]⟩).2
      ⟨"run", [("state", [("reportInterval", OptVal.vInt 250)])]⟩ rfl (by decide)

/-- C3 (code bug): the full option mapping — `outfname` included — is
forwarded to the constructor, so `traj_netcdf.outfname = "custom"` raises
`TypeError` inside `NetCDF4Reporter.__init__` (which has no `outfname`
parameter) instead of producing a reporter targeting `custom.nc`; without an
`outfname` option the NetCDF reporter does target prefix + `.nc`. -/
theorem c3_outfname_forwarded_type_error :
    makeReporters ⟨"run", [("traj_netcdf", [("outfname", OptVal.vStr "custom")])]⟩
      = Except.error "TypeError: __init__() got an unexpected keyword argument 'outfname'"
    ∧ makeReporters ⟨"run", [("traj_netcdf", [])]⟩
      = Except.ok [Reporter.traj_netcdf "run.nc" []] := by
  constructor <;> rfl
